import Mathlib

/-!
Verification of the homecare-bot backend core: the risk escalation engine
(`backend/services/risk_service.py`), the Slack event intake dedup path
(`backend/main.py`), the processed-message cache and reaction-based claim
(`backend/agents/root_agent.py`), and the manual risk override path
(`backend/api/patients.py`).

Conventions of the embedding:
- Python strings are Lean `String`; a possibly-missing dict value is
  `Option String`.
- Timestamps are `Int` seconds; `timedelta.days` is floor division by 86400
  (`Int.fdiv`), matching Python's floor semantics.
- The wall-clock reading `datetime.now(timezone.utc)` inside
  `RiskService._calculate` is passed in as an explicit `now : Int` argument.
- Firestore writes are modelled as lists of records returned alongside the
  result (the effect log of one invocation).
-/

namespace HomecareBot

/-- Python `x or d` for a possibly-missing string `x`: `None` and `""` are
falsy and yield the default `d`. -/
def pyOrStr (a : Option String) (d : String) : String :=
  match a with
  | none => d
  | some s => if s = "" then d else s

/-- Python `str.lower()` (ASCII case folding, applied character-wise; written
over `List.map` so that it evaluates by kernel reduction). -/
def pyLower (s : String) : String :=
  ⟨s.data.map Char.toLower⟩

/-- `(alert.get("severity") or "low").lower()` from `RiskService._calculate`
(and identically `(patient.get("risk_level") or "low").lower()` in
`RiskService.recalculate`). -/
def orLowLower (a : Option String) : String :=
  pyLower (pyOrStr a "low")

/-- Number of unacknowledged alerts whose normalised severity equals `sev`;
this is the value `counts[sev]` built by the counting loop in
`RiskService._calculate` (severities outside high/medium/low are ignored). -/
def countSeverity (alerts : List (Option String)) (sev : String) : Nat :=
  (alerts.filter (fun a => orLowLower a == sev)).length

/-- `level_order = ["high", "medium", "low"]` from the step-down branch. -/
def levelOrder : List String := ["high", "medium", "low"]

/-- Shallow embedding of `RiskService._calculate`.  `unackedAlerts` carries
each alert's raw `severity` field; `latestAlertAt` is
`get_latest_alert_timestamp`; `now` is the internal
`datetime.now(timezone.utc)` read.  Returns `(new_level, reason)`. -/
def calculate (unackedAlerts : List (Option String))
    (currentLevel currentSource : String)
    (latestAlertAt : Option Int) (now : Int) : String × String :=
  let ch := countSeverity unackedAlerts "high"
  let cm := countSeverity unackedAlerts "medium"
  let cl := countSeverity unackedAlerts "low"
  let totalUnacked := ch + cm + cl
  if 1 ≤ ch then
    ("high", "未確認の緊急アラートが" ++ toString ch ++ "件あります")
  else if 2 ≤ cm then
    ("high", "未確認の注意アラートが" ++ toString cm ++ "件あります")
  else if cm = 1 then
    ("medium", "未確認の注意アラートが1件あります")
  else if 3 ≤ cl then
    ("medium", "未確認の情報アラートが" ++ toString cl ++ "件あります")
  else if 1 ≤ cl then
    ("low", "未確認の情報アラートが" ++ toString cl ++ "件あります")
  else if totalUnacked = 0 then
    if currentSource = "manual" then
      (currentLevel, "手動設定中のため自動変更なし")
    else
      match latestAlertAt with
      | none => ("low", "アラート履歴がないため低リスクに設定")
      | some t =>
        let daysSince := (now - t).fdiv 86400
        if 14 ≤ daysSince then
          ("low", "全アラート確認済み・" ++ toString daysSince ++ "日間新規アラートなし")
        else if 7 ≤ daysSince then
          let currentIdx := if levelOrder.contains currentLevel then
            levelOrder.indexOf currentLevel else 0
          let newIdx := min (currentIdx + 1) (levelOrder.length - 1)
          let newLevel := levelOrder.getD newIdx "low"
          if newLevel ≠ currentLevel then
            (newLevel,
             "全アラート確認済み・" ++ toString daysSince ++ "日間新規アラートなし（1段階下げ）")
          else
            (currentLevel, "現状維持")
        else
          (currentLevel, "7日以内にアラートがあるため現状維持")
  else
    (currentLevel, "現状維持")

end HomecareBot

namespace HomecareBot

/-- C1: `RiskService._calculate` evaluates the escalation rules in strict
priority order with first match winning — ≥1 unacknowledged high gives high;
else ≥2 medium gives high; else exactly 1 medium gives medium; else ≥3 low
gives medium; else ≥1 low gives low — regardless of the current level and the
current source. -/
theorem calculate_escalation_priority (alerts : List (Option String))
    (lvl src : String) (lat : Option Int) (now : Int) :
    (1 ≤ countSeverity alerts "high" →
      (calculate alerts lvl src lat now).1 = "high") ∧
    (countSeverity alerts "high" = 0 → 2 ≤ countSeverity alerts "medium" →
      (calculate alerts lvl src lat now).1 = "high") ∧
    (countSeverity alerts "high" = 0 → countSeverity alerts "medium" = 1 →
      (calculate alerts lvl src lat now).1 = "medium") ∧
    (countSeverity alerts "high" = 0 → countSeverity alerts "medium" = 0 →
      3 ≤ countSeverity alerts "low" →
      (calculate alerts lvl src lat now).1 = "medium") ∧
    (countSeverity alerts "high" = 0 → countSeverity alerts "medium" = 0 →
      1 ≤ countSeverity alerts "low" → countSeverity alerts "low" < 3 →
      (calculate alerts lvl src lat now).1 = "low") := by
  refine ⟨?_, ?_, ?_, ?_, ?_⟩
  · intro h1
    unfold calculate
    rw [if_pos h1]
  · intro h0 hm
    unfold calculate
    rw [if_neg (by omega), if_pos hm]
  · intro h0 hm
    unfold calculate
    rw [if_neg (by omega), if_neg (by omega), if_pos hm]
  · intro h0 hm hl
    unfold calculate
    rw [if_neg (by omega), if_neg (by omega), if_neg (by omega), if_pos hl]
  · intro h0 hm hl1 hl3
    unfold calculate
    rw [if_neg (by omega), if_neg (by omega), if_neg (by omega),
      if_neg (by omega), if_pos hl1]

/-- Witness for C1 at a concrete input: one unacknowledged high-severity alert
escalates to high even on a manually pinned medium level. -/
theorem calculate_escalation_priority_witness :
    (calculate [some "high"] "medium" "manual" none 0).1 = "high" :=
  (calculate_escalation_priority [some "high"] "medium" "manual" none 0).1
    (by decide)

end HomecareBot

namespace HomecareBot

/-- C2: with zero unacknowledged alerts and current source `auto`,
`RiskService._calculate` de-escalates — no alert history gives low; ≥14 whole
days since the latest alert gives low; 7–13 days steps down exactly one level
in the order high→medium→low with low as the floor; under 7 days the current
level is kept. -/
theorem calculate_deescalation_auto (alerts : List (Option String))
    (lvl : String) (lat : Option Int) (now : Int)
    (hlvl : lvl = "high" ∨ lvl = "medium" ∨ lvl = "low")
    (h0 : countSeverity alerts "high" = 0)
    (m0 : countSeverity alerts "medium" = 0)
    (l0 : countSeverity alerts "low" = 0) :
    (lat = none → (calculate alerts lvl "auto" lat now).1 = "low") ∧
    (∀ t, lat = some t → 14 ≤ (now - t).fdiv 86400 →
      (calculate alerts lvl "auto" lat now).1 = "low") ∧
    (∀ t, lat = some t → 7 ≤ (now - t).fdiv 86400 → (now - t).fdiv 86400 < 14 →
      (calculate alerts lvl "auto" lat now).1 =
        (if lvl = "high" then "medium" else "low")) ∧
    (∀ t, lat = some t → (now - t).fdiv 86400 < 7 →
      (calculate alerts lvl "auto" lat now).1 = lvl) := by
  refine ⟨?_, ?_, ?_, ?_⟩
  · intro hl
    subst hl
    unfold calculate
    rw [if_neg (by omega), if_neg (by omega), if_neg (by omega),
      if_neg (by omega), if_neg (by omega), if_pos (by omega),
      if_neg (by decide)]
  · intro t hl hd
    subst hl
    unfold calculate
    rw [if_neg (by omega), if_neg (by omega), if_neg (by omega),
      if_neg (by omega), if_neg (by omega), if_pos (by omega),
      if_neg (by decide)]
    simp only
    rw [if_pos hd]
  · intro t hl hd7 hd14
    subst hl
    unfold calculate
    rw [if_neg (by omega), if_neg (by omega), if_neg (by omega),
      if_neg (by omega), if_neg (by omega), if_pos (by omega),
      if_neg (by decide)]
    simp only
    rw [if_neg (by omega), if_pos hd7]
    rcases hlvl with h | h | h <;> subst h <;> simp +decide [levelOrder]
  · intro t hl hd
    subst hl
    unfold calculate
    rw [if_neg (by omega), if_neg (by omega), if_neg (by omega),
      if_neg (by omega), if_neg (by omega), if_pos (by omega),
      if_neg (by decide)]
    simp only
    rw [if_neg (by omega), if_neg (by omega)]

/-- Witness for C2 at a concrete input: current high, source auto, latest alert
10 whole days ago (864000 seconds) steps down exactly one level, to medium. -/
theorem calculate_deescalation_auto_witness :
    (calculate [] "high" "auto" (some 0) 864000).1 =
      (if "high" = "high" then "medium" else "low") :=
  (calculate_deescalation_auto [] "high" (some 0) 864000
    (Or.inl rfl) (by decide) (by decide) (by decide)).2.2.1
    0 rfl (by decide) (by decide)

end HomecareBot

namespace HomecareBot

/-- The patient fields read by `RiskService.recalculate`:
`patient.get("risk_level")` and `patient.get("risk_level_source")`. -/
structure Patient where
  risk_level : Option String
  risk_level_source : Option String
deriving DecidableEq

/-- The `FirestoreService.update_patient` payload written by
`RiskService.recalculate` on a change. -/
structure PatientUpdate where
  risk_level : String
  risk_level_source : String
  risk_level_reason : String
  risk_level_updated_at : Int
deriving DecidableEq

/-- One `FirestoreService.create_risk_history_entry` append (risk history). -/
structure HistoryEntry where
  previous_level : String
  new_level : String
  source : String
  reason : String
  trigger : String
  snapshot_high : Nat
  snapshot_medium : Nat
  snapshot_low : Nat
  created_by : String
deriving DecidableEq

/-- Result and Firestore effect log of one `RiskService.recalculate`
invocation (patient writes and history appends performed by it). -/
structure RecalcResult where
  changed : Bool
  updates : List PatientUpdate
  history : List HistoryEntry
deriving DecidableEq

/-- Shallow embedding of `RiskService.recalculate`:
`current_level = (patient.get("risk_level") or "low").lower()`,
`current_source = patient.get("risk_level_source", "manual")`; when the
calculated level equals the current one it returns `changed=False` with no
writes, otherwise it updates the patient (source `auto`) and appends exactly
one history entry with a severity-count snapshot. -/
def recalculate (patient : Option Patient)
    (unackedAlerts : List (Option String)) (latestAlertAt : Option Int)
    (now : Int) (trigger : String) : RecalcResult :=
  match patient with
  | none => ⟨false, [], []⟩
  | some p =>
    let currentLevel := orLowLower p.risk_level
    let currentSource := p.risk_level_source.getD "manual"
    let r := calculate unackedAlerts currentLevel currentSource latestAlertAt now
    if r.1 = currentLevel then ⟨false, [], []⟩
    else
      ⟨true,
        [⟨r.1, "auto", r.2, now⟩],
        [⟨currentLevel, r.1, "auto", r.2, trigger,
          countSeverity unackedAlerts "high",
          countSeverity unackedAlerts "medium",
          countSeverity unackedAlerts "low", "system"⟩]⟩

/-- With zero counted unacknowledged alerts and source `manual`,
`_calculate` returns the current level with the manual-pin reason. -/
theorem calculate_manual_zero (alerts : List (Option String)) (lvl : String)
    (lat : Option Int) (now : Int)
    (h0 : countSeverity alerts "high" = 0)
    (m0 : countSeverity alerts "medium" = 0)
    (l0 : countSeverity alerts "low" = 0) :
    calculate alerts lvl "manual" lat now = (lvl, "手動設定中のため自動変更なし") := by
  unfold calculate
  rw [if_neg (by omega), if_neg (by omega), if_neg (by omega),
    if_neg (by omega), if_neg (by omega), if_pos (by omega), if_pos rfl]

end HomecareBot

namespace HomecareBot

/-- C3: with zero unacknowledged alerts and current source `manual`,
`_calculate` returns the current level unchanged for any level and any elapsed
time, and `recalculate` reports `changed=false` with no patient write and no
history append — a manual pin is never automatically de-escalated. -/
theorem manual_pin_no_auto_change (alerts : List (Option String)) (lvl : String)
    (lat : Option Int) (now : Int) (trig : String) (p : Patient)
    (hsrc : p.risk_level_source = some "manual")
    (h0 : countSeverity alerts "high" = 0)
    (m0 : countSeverity alerts "medium" = 0)
    (l0 : countSeverity alerts "low" = 0) :
    (calculate alerts lvl "manual" lat now).1 = lvl ∧
    recalculate (some p) alerts lat now trig = ⟨false, [], []⟩ := by
  constructor
  · rw [calculate_manual_zero alerts lvl lat now h0 m0 l0]
  · simp only [recalculate, hsrc, Option.getD_some]
    rw [calculate_manual_zero alerts _ lat now h0 m0 l0]
    rw [if_pos rfl]

/-- Witness for C3 at a concrete input: a manually pinned high level with no
unacknowledged alerts and a latest alert 30 days old stays high, with no
write and no history entry. -/
theorem manual_pin_no_auto_change_witness :
    (calculate [] "high" "manual" (some 0) 2592000).1 = "high" ∧
    recalculate (some ⟨some "high", some "manual"⟩) [] (some 0) 2592000
      "alert_acknowledged" = ⟨false, [], []⟩ :=
  manual_pin_no_auto_change [] "high" (some 0) 2592000 "alert_acknowledged"
    ⟨some "high", some "manual"⟩ rfl (by decide) (by decide) (by decide)

end HomecareBot

namespace HomecareBot

/-- C8: every `recalculate` invocation with `changed=true` performs exactly one
patient update and appends exactly one history entry whose `previous_level` is
the level before the transition and whose `new_level` is the persisted level,
with source `auto`, the trigger, the actor `system`, and a severity-count
snapshot of the unacknowledged alerts; a `changed=false` invocation writes no
patient update and appends no history entry. -/
theorem recalculate_history_append_law (p : Patient)
    (alerts : List (Option String)) (lat : Option Int) (now : Int)
    (trig : String) :
    ((recalculate (some p) alerts lat now trig).changed = true →
      ∃ u e, (recalculate (some p) alerts lat now trig).updates = [u] ∧
        (recalculate (some p) alerts lat now trig).history = [e] ∧
        e.previous_level = orLowLower p.risk_level ∧
        e.new_level = u.risk_level ∧
        e.source = "auto" ∧
        e.trigger = trig ∧
        e.created_by = "system" ∧
        e.snapshot_high = countSeverity alerts "high" ∧
        e.snapshot_medium = countSeverity alerts "medium" ∧
        e.snapshot_low = countSeverity alerts "low") ∧
    ((recalculate (some p) alerts lat now trig).changed = false →
      (recalculate (some p) alerts lat now trig).updates = [] ∧
      (recalculate (some p) alerts lat now trig).history = []) := by
  simp only [recalculate]
  split
  · constructor
    · intro hc
      simp at hc
    · intro _
      exact ⟨rfl, rfl⟩
  · constructor
    · intro _
      exact ⟨_, _, rfl, rfl, rfl, rfl, rfl, rfl, rfl, rfl, rfl, rfl⟩
    · intro hc
      simp at hc

/-- Witness for C8 at a concrete input: an auto/low patient gaining one
unacknowledged high alert transitions with exactly one update and one matching
history entry. -/
theorem recalculate_history_append_law_witness :
    ∃ u e,
      (recalculate (some ⟨some "low", some "auto"⟩) [some "high"] none 0
        "alert_created").updates = [u] ∧
      (recalculate (some ⟨some "low", some "auto"⟩) [some "high"] none 0
        "alert_created").history = [e] ∧
      e.previous_level = orLowLower (some "low") ∧
      e.new_level = u.risk_level ∧
      e.source = "auto" ∧
      e.trigger = "alert_created" ∧
      e.created_by = "system" ∧
      e.snapshot_high = countSeverity [some "high"] "high" ∧
      e.snapshot_medium = countSeverity [some "high"] "medium" ∧
      e.snapshot_low = countSeverity [some "high"] "low" :=
  (recalculate_history_append_law ⟨some "low", some "auto"⟩ [some "high"]
    none 0 "alert_created").1 (by decide)

end HomecareBot

namespace HomecareBot

/-- C10: with at least one counted unacknowledged alert, `_calculate` is
independent of the current source (a manual pin can be replaced by any
escalation outcome — e.g. current high/manual with exactly one unacknowledged
low alert yields low), and when `recalculate` persists a change it resets the
source to `auto`. -/
theorem escalation_overrides_manual_pin (alerts : List (Option String))
    (lvl src src' : String) (lat : Option Int) (now : Int) (p : Patient)
    (trig : String)
    (h : 1 ≤ countSeverity alerts "high" + countSeverity alerts "medium" +
      countSeverity alerts "low") :
    calculate alerts lvl src lat now = calculate alerts lvl src' lat now ∧
    (calculate [some "low"] "high" "manual" lat now).1 = "low" ∧
    ((recalculate (some p) alerts lat now trig).changed = true →
      ∀ u ∈ (recalculate (some p) alerts lat now trig).updates,
        u.risk_level_source = "auto") := by
  refine ⟨?_, ?_, ?_⟩
  · by_cases h1 : 1 ≤ countSeverity alerts "high"
    · unfold calculate
      rw [if_pos h1, if_pos h1]
    · by_cases h2 : 2 ≤ countSeverity alerts "medium"
      · unfold calculate
        rw [if_neg h1, if_pos h2, if_neg h1, if_pos h2]
      · by_cases h3 : countSeverity alerts "medium" = 1
        · unfold calculate
          rw [if_neg h1, if_neg h2, if_pos h3, if_neg h1, if_neg h2, if_pos h3]
        · by_cases h4 : 3 ≤ countSeverity alerts "low"
          · unfold calculate
            rw [if_neg h1, if_neg h2, if_neg h3, if_pos h4,
              if_neg h1, if_neg h2, if_neg h3, if_pos h4]
          · have h5 : 1 ≤ countSeverity alerts "low" := by omega
            unfold calculate
            rw [if_neg h1, if_neg h2, if_neg h3, if_neg h4, if_pos h5,
              if_neg h1, if_neg h2, if_neg h3, if_neg h4, if_pos h5]
  · unfold calculate
    rw [if_neg (by decide), if_neg (by decide), if_neg (by decide),
      if_neg (by decide), if_pos (by decide)]
  · simp only [recalculate]
    split
    · intro hc
      simp at hc
    · intro _ u hu
      simp only [List.mem_singleton] at hu
      subst hu
      rfl

/-- Witness for C10 at a concrete input: one unacknowledged low alert on a
manually pinned high level gives low independent of the source, and the
persisted update carries source `auto`. -/
theorem escalation_overrides_manual_pin_witness :
    calculate [some "low"] "high" "manual" none 0 =
      calculate [some "low"] "high" "auto" none 0 ∧
    (calculate [some "low"] "high" "manual" none 0).1 = "low" ∧
    ((recalculate (some ⟨some "high", some "manual"⟩) [some "low"] none 0
        "alert_created").changed = true →
      ∀ u ∈ (recalculate (some ⟨some "high", some "manual"⟩) [some "low"]
          none 0 "alert_created").updates,
        u.risk_level_source = "auto") :=
  escalation_overrides_manual_pin [some "low"] "high" "manual" "auto" none 0
    ⟨some "high", some "manual"⟩ "alert_created" (by decide)

end HomecareBot

namespace HomecareBot

/-- When the escalation rules match (at least one counted unacknowledged
alert), the outcome of `_calculate` ignores the source, the latest-alert
timestamp and the clock. -/
theorem calculate_escalation_ignores_rest (alerts : List (Option String))
    (lvl src src' : String) (lat lat' : Option Int) (now now' : Int)
    (h : 1 ≤ countSeverity alerts "high" + countSeverity alerts "medium" +
      countSeverity alerts "low") :
    calculate alerts lvl src lat now = calculate alerts lvl src' lat' now' := by
  by_cases h1 : 1 ≤ countSeverity alerts "high"
  · unfold calculate
    rw [if_pos h1, if_pos h1]
  · by_cases h2 : 2 ≤ countSeverity alerts "medium"
    · unfold calculate
      rw [if_neg h1, if_pos h2, if_neg h1, if_pos h2]
    · by_cases h3 : countSeverity alerts "medium" = 1
      · unfold calculate
        rw [if_neg h1, if_neg h2, if_pos h3, if_neg h1, if_neg h2, if_pos h3]
      · by_cases h4 : 3 ≤ countSeverity alerts "low"
        · unfold calculate
          rw [if_neg h1, if_neg h2, if_neg h3, if_pos h4,
            if_neg h1, if_neg h2, if_neg h3, if_pos h4]
        · have h5 : 1 ≤ countSeverity alerts "low" := by omega
          unfold calculate
          rw [if_neg h1, if_neg h2, if_neg h3, if_neg h4, if_pos h5,
            if_neg h1, if_neg h2, if_neg h3, if_neg h4, if_pos h5]

/-- C4 counterexample: with identical explicit inputs
(`unacked_alerts`, `current_level`, `current_source`, `latest_alert_at`),
two invocations of `_calculate` at different wall-clock instants (6 days and
20 days after the latest alert) return different results — the function reads
`datetime.now` internally and has no `now` parameter. -/
theorem calculate_not_wall_clock_free :
    calculate [] "high" "auto" (some 0) 518400 ≠
      calculate [] "high" "auto" (some 0) 1728000 := by decide

/-- C4 amended: `_calculate` is deterministic in its four explicit inputs
together with the wall-clock instant it reads internally, and the clock can
only influence the result in the automatic de-escalation branch: whenever at
least one counted unacknowledged alert exists or the source is `manual`, the
result is independent of the clock. -/
theorem calculate_deterministic_given_now (alerts : List (Option String))
    (lvl src : String) (lat : Option Int) (n₁ n₂ : Int) :
    (n₁ = n₂ → calculate alerts lvl src lat n₁ = calculate alerts lvl src lat n₂) ∧
    ((1 ≤ countSeverity alerts "high" + countSeverity alerts "medium" +
        countSeverity alerts "low" ∨ src = "manual") →
      calculate alerts lvl src lat n₁ = calculate alerts lvl src lat n₂) := by
  constructor
  · intro h
    rw [h]
  · intro h
    by_cases hsum : 1 ≤ countSeverity alerts "high" +
      countSeverity alerts "medium" + countSeverity alerts "low"
    · exact calculate_escalation_ignores_rest alerts lvl src src lat lat n₁ n₂ hsum
    · rcases h with h | h
      · omega
      · subst h
        rw [calculate_manual_zero alerts lvl lat n₁ (by omega) (by omega) (by omega),
          calculate_manual_zero alerts lvl lat n₂ (by omega) (by omega) (by omega)]

/-- Witness for C4 (amended) at concrete inputs: equal clock readings give
equal results, and a manually pinned level gives clock-independent results. -/
theorem calculate_deterministic_given_now_witness :
    calculate [] "low" "manual" (some 0) 518400 =
      calculate [] "low" "manual" (some 0) 518400 ∧
    calculate [] "low" "manual" (some 0) 518400 =
      calculate [] "low" "manual" (some 0) 1728000 :=
  ⟨(calculate_deterministic_given_now [] "low" "manual" (some 0) 518400
      518400).1 rfl,
   (calculate_deterministic_given_now [] "low" "manual" (some 0) 518400
      1728000).2 (Or.inr rfl)⟩

end HomecareBot

namespace HomecareBot

/-- `_MAX_DEDUP_SIZE = 5000` in `backend/main.py` and `_MAX_PROCESSED = 5000`
in `backend/agents/root_agent.py`. -/
def MAX_DEDUP_SIZE : Nat := 5000

/-- The eviction loop `while len(cache) > cap: cache.popitem(last=False)`:
repeatedly drop the oldest (first-inserted) entry while over capacity.  The
cache is a list of keys in insertion order, oldest first, mirroring an
`OrderedDict` with unit values. -/
def evictOldest {α : Type} (l : List α) : List α :=
  if MAX_DEDUP_SIZE < l.length then evictOldest l.tail else l
termination_by l.length
decreasing_by
  rename_i h
  simp only [List.length_tail]
  unfold MAX_DEDUP_SIZE at h
  omega

/-- The eviction loop is a prefix drop: it removes exactly the
`length - capacity` oldest entries. -/
theorem evictOldest_eq_drop {α : Type} :
    ∀ (n : Nat) (l : List α), l.length = n →
      evictOldest l = l.drop (l.length - MAX_DEDUP_SIZE) := by
  intro n
  induction n using Nat.strong_induction_on with
  | _ n ih =>
    intro l hl
    rw [evictOldest.eq_def]
    split
    · rename_i h
      have ht : l.tail.length = l.length - 1 := List.length_tail l
      rw [ih l.tail.length (by omega) l.tail rfl]
      have h5 : l.length - MAX_DEDUP_SIZE = (l.tail.length - MAX_DEDUP_SIZE) + 1 := by
        rw [ht]
        unfold MAX_DEDUP_SIZE at h ⊢
        omega
      rw [h5]
      simp only [← List.drop_one, List.drop_drop]
      generalize (List.drop 1 l).length - MAX_DEDUP_SIZE = k
      rw [Nat.add_comm]
    · rename_i h
      have h0 : l.length - MAX_DEDUP_SIZE = 0 := by
        unfold MAX_DEDUP_SIZE at h ⊢
        omega
      simp [h0]

end HomecareBot

namespace HomecareBot

/-- `RootAgent._mark_as_processed` (and the insertion step of
`slack_events` in `backend/main.py`): insert the key — an `OrderedDict`
assignment to an existing key keeps its position and a fresh key goes to the
end — then evict oldest entries while over capacity. -/
def markAsProcessed {α : Type} [DecidableEq α] (cache : List α) (key : α) :
    List α :=
  evictOldest (if key ∈ cache then cache else cache ++ [key])

/-- The eviction loop leaves at most `MAX_DEDUP_SIZE` entries. -/
theorem evictOldest_length {α : Type} (l : List α) :
    (evictOldest l).length ≤ MAX_DEDUP_SIZE := by
  rw [evictOldest_eq_drop l.length l rfl, List.length_drop]
  omega

/-- Within capacity the eviction loop is the identity. -/
theorem evictOldest_of_le {α : Type} (l : List α)
    (h : l.length ≤ MAX_DEDUP_SIZE) : evictOldest l = l := by
  rw [evictOldest_eq_drop l.length l rfl]
  have h0 : l.length - MAX_DEDUP_SIZE = 0 := by omega
  simp [h0]

/-- Inserting distinct keys while staying within capacity appends them in
order with no eviction. -/
theorem foldl_markAsProcessed_nodup {α : Type} [DecidableEq α] :
    ∀ (ks c : List α), (c ++ ks).Nodup →
      (c ++ ks).length ≤ MAX_DEDUP_SIZE →
      List.foldl markAsProcessed c ks = c ++ ks := by
  intro ks
  induction ks with
  | nil =>
    intro c _ _
    simp
  | cons k t ih =>
    intro c hnd hlen
    have hk : k ∉ c := by
      rw [List.nodup_append] at hnd
      intro hmem
      exact hnd.2.2 hmem (by simp)
    have hstep : markAsProcessed c k = c ++ [k] := by
      unfold markAsProcessed
      rw [if_neg hk]
      refine evictOldest_of_le _ ?_
      simp at hlen ⊢
      omega
    have hassoc : (c ++ [k]) ++ t = c ++ k :: t := by
      rw [List.append_assoc, List.singleton_append]
    simp only [List.foldl_cons]
    rw [hstep, ih (c ++ [k]) (by rw [hassoc]; exact hnd) (by rw [hassoc]; exact hlen),
      hassoc]

end HomecareBot

namespace HomecareBot

/-- C6: the dedup cache never exceeds its fixed capacity of 5000 entries after
any mark-seen operation, and inserting 5001 distinct keys into an empty cache
causes exactly one eviction — of the first-inserted key, which is no longer
reported as seen, while all other keys remain seen. -/
theorem dedup_capacity_and_eviction {α : Type} [DecidableEq α]
    (c : List α) (k : α) (ks : List α)
    (hnd : ks.Nodup) (hlen : ks.length = 5001) :
    (markAsProcessed c k).length ≤ 5000 ∧
    List.foldl markAsProcessed [] ks = ks.drop 1 ∧
    (∀ k0, ks.head? = some k0 → k0 ∉ List.foldl markAsProcessed [] ks) ∧
    (∀ x ∈ ks.drop 1, x ∈ List.foldl markAsProcessed [] ks) := by
  have hmax : (5000 : Nat) = MAX_DEDUP_SIZE := rfl
  have hne : ks ≠ [] := by
    intro h
    rw [h] at hlen
    simp at hlen
  have hks : ks.dropLast ++ [ks.getLast hne] = ks :=
    List.dropLast_append_getLast hne
  have hfold : List.foldl markAsProcessed [] ks = ks.drop 1 := by
    conv_lhs => rw [← hks]
    rw [List.foldl_append]
    have hdl : List.foldl markAsProcessed [] ks.dropLast = ks.dropLast := by
      have := foldl_markAsProcessed_nodup ks.dropLast []
      simp only [List.nil_append] at this
      refine this ?_ ?_
      · rw [← hks] at hnd
        exact (List.nodup_append.mp hnd).1
      · rw [← hmax]
        have : ks.dropLast.length = 5000 := by
          have := List.length_dropLast ks
          omega
        omega
    simp only [List.foldl_cons, List.foldl_nil]
    rw [hdl]
    have hklast : ks.getLast hne ∉ ks.dropLast := by
      rw [← hks] at hnd
      rw [List.nodup_append] at hnd
      intro hmem
      exact hnd.2.2 hmem (by simp)
    unfold markAsProcessed
    rw [if_neg hklast]
    rw [hks]
    rw [evictOldest_eq_drop ks.length ks rfl, ← hmax, hlen]
  refine ⟨?_, hfold, ?_, ?_⟩
  · unfold markAsProcessed
    rw [hmax]
    exact evictOldest_length _
  · intro k0 hk0 hmem
    rw [hfold] at hmem
    rcases ks with _ | ⟨a, t⟩
    · simp at hk0
    · simp at hk0
      subst hk0
      rw [List.nodup_cons] at hnd
      simp at hmem
      exact hnd.1 hmem
  · intro x hx
    rw [hfold]
    exact hx

end HomecareBot

namespace HomecareBot

/-- Witness for C6 at a concrete input: the 5001 distinct keys `0..5000`. -/
theorem dedup_capacity_and_eviction_witness :
    (markAsProcessed ([] : List Nat) 0).length ≤ 5000 ∧
    List.foldl markAsProcessed [] (List.range 5001) =
      (List.range 5001).drop 1 ∧
    (∀ k0, (List.range 5001).head? = some k0 →
      k0 ∉ List.foldl markAsProcessed [] (List.range 5001)) ∧
    (∀ x ∈ (List.range 5001).drop 1,
      x ∈ List.foldl markAsProcessed [] (List.range 5001)) :=
  dedup_capacity_and_eviction [] 0 (List.range 5001)
    (List.nodup_range 5001) (List.length_range 5001)

end HomecareBot

namespace HomecareBot

/-- The fields of an inbound Slack Events request read by `slack_events` in
`backend/main.py`: the `X-Slack-Retry-Num` header, the signature verification
outcome (`sig_ok` is true when `verify_slack_signature` succeeds or
verification is skipped), `body["type"]`/`body["challenge"]`,
`body["event_id"]`, and the nested `event` fields `client_msg_id`, `ts`,
`type` (`event_type`), `bot_id`, `subtype`, plus whether
`metadata.event_type == "dummy_report"`. -/
structure SlackRequest where
  retry_num : Option String
  sig_ok : Bool
  btype : Option String
  challenge : Option String
  event_id : Option String
  client_msg_id : Option String
  ts : Option String
  event_type : Option String
  bot_id : Option String
  subtype : Option String
  dummy_report : Bool
deriving DecidableEq

/-- The responses of `slack_events`: `{"ok": True}` (accepted), the
URL-verification challenge echo, or the 401 on signature failure. -/
inductive SlackResponse where
  | accepted
  | challengeReply (c : Option String)
  | unauthorized
deriving DecidableEq

/-- Python truthiness of a possibly-missing string (`if retry_num:`,
`if event_id:`, `event.get("bot_id")`). -/
def truthy (s : Option String) : Bool :=
  match s with
  | none => false
  | some v => !(v == "")

/-- `body.get("event_id") or event.get("client_msg_id") or event.get("ts", "")`. -/
def eventKey (r : SlackRequest) : String :=
  pyOrStr r.event_id (pyOrStr r.client_msg_id (r.ts.getD ""))

/-- Shallow embedding of the `slack_events` handler: retry rejection,
signature gate, URL verification, early dedup against the
`_processed_event_ids` cache (insert + eviction loop), bot-message skip, and
fire-and-forget dispatch for `message`/`app_mention` events.  Returns the new
cache, the HTTP response, and whether a detached processing task was
spawned. -/
def slackEvents (cache : List String) (r : SlackRequest) :
    List String × SlackResponse × Bool :=
  if truthy r.retry_num = true then (cache, .accepted, false)
  else if r.sig_ok = false then (cache, .unauthorized, false)
  else if r.btype = some "url_verification" then
    (cache, .challengeReply r.challenge, false)
  else
    let key := eventKey r
    if key ≠ "" ∧ key ∈ cache then (cache, .accepted, false)
    else
      let cache' := if key ≠ "" then evictOldest (cache ++ [key]) else cache
      if (truthy r.bot_id = true ∨ r.subtype = some "bot_message") ∧
          r.dummy_report = false then
        (cache', .accepted, false)
      else if r.event_type = some "message" ∨ r.event_type = some "app_mention"
          then
        (cache', .accepted, true)
      else (cache', .accepted, false)

/-- `n` consecutive deliveries of the same request to one instance: final
cache and the total number of detached processing tasks spawned. -/
def slackEventsRep (r : SlackRequest) : Nat → List String →
    List String × Nat
  | 0, c => (c, 0)
  | n + 1, c =>
    let s := slackEvents c r
    let rest := slackEventsRep r n s.1
    (rest.1, (if s.2.2 = true then 1 else 0) + rest.2)

/-- A delivery whose identity key is already cached is accepted without
mutating the cache and without spawning processing. -/
theorem slackEvents_noop (r : SlackRequest) (c' : List String)
    (hretry : truthy r.retry_num = false)
    (hsig : r.sig_ok = true)
    (hurl : r.btype ≠ some "url_verification")
    (hkey : eventKey r ≠ "")
    (hmem : eventKey r ∈ c') :
    slackEvents c' r = (c', .accepted, false) := by
  unfold slackEvents
  rw [if_neg (by simp [hretry]), if_neg (by simp [hsig]), if_neg hurl,
    if_pos ⟨hkey, hmem⟩]

/-- Any number of deliveries of an already-cached key spawn nothing and leave
the cache unchanged. -/
theorem slackEventsRep_noop (r : SlackRequest) (m : Nat) (c' : List String)
    (hretry : truthy r.retry_num = false)
    (hsig : r.sig_ok = true)
    (hurl : r.btype ≠ some "url_verification")
    (hkey : eventKey r ≠ "")
    (hmem : eventKey r ∈ c') :
    slackEventsRep r m c' = (c', 0) := by
  induction m with
  | zero => rfl
  | succ k ih =>
    unfold slackEventsRep
    rw [slackEvents_noop r c' hretry hsig hurl hkey hmem]
    simp only [ih]
    simp

end HomecareBot

namespace HomecareBot

/-- A freshly inserted key survives the eviction loop (evictions remove only
oldest entries). -/
theorem mem_evictOldest_append (c : List String) (k : String) :
    k ∈ evictOldest (c ++ [k]) := by
  rw [evictOldest_eq_drop (c ++ [k]).length _ rfl]
  have hm : (c ++ [k]).length - MAX_DEDUP_SIZE ≤ c.length := by
    unfold MAX_DEDUP_SIZE
    simp
  rw [List.drop_append_of_le_length hm]
  simp

end HomecareBot

namespace HomecareBot

/-- C5: delivering the same processable event (non-retry, verified, nonempty
identity key not yet cached, non-bot, `message`/`app_mention`) `n ≥ 1` times
to one instance inserts the key into the dedup cache once and spawns exactly
one detached processing task; every delivery after the first finds the key in
the cache and is accepted without mutating the cache or spawning
processing. -/
theorem slack_events_dedup_idempotent (c : List String) (r : SlackRequest)
    (n : Nat)
    (hretry : truthy r.retry_num = false)
    (hsig : r.sig_ok = true)
    (hurl : r.btype ≠ some "url_verification")
    (hkey : eventKey r ≠ "")
    (hmem : eventKey r ∉ c)
    (hbot : ¬((truthy r.bot_id = true ∨ r.subtype = some "bot_message") ∧
      r.dummy_report = false))
    (htype : r.event_type = some "message" ∨ r.event_type = some "app_mention")
    (hn : 1 ≤ n) :
    slackEventsRep r n c = (evictOldest (c ++ [eventKey r]), 1) ∧
    (∀ c', eventKey r ∈ c' → slackEvents c' r = (c', .accepted, false)) := by
  have hfirst : slackEvents c r =
      (evictOldest (c ++ [eventKey r]), .accepted, true) := by
    unfold slackEvents
    rw [if_neg (by simp [hretry]), if_neg (by simp [hsig]), if_neg hurl,
      if_neg (fun h => hmem h.2)]
    simp only
    rw [if_pos hkey, if_neg hbot, if_pos htype]
  constructor
  · obtain ⟨m, rfl⟩ : ∃ m, n = m + 1 := ⟨n - 1, by omega⟩
    unfold slackEventsRep
    simp only [hfirst]
    rw [slackEventsRep_noop r m _ hretry hsig hurl hkey
      (mem_evictOldest_append c (eventKey r))]
    simp
  · intro c' hc'
    exact slackEvents_noop r c' hretry hsig hurl hkey hc'

end HomecareBot

namespace HomecareBot

/-- A concrete processable request: verified `message` event with
`event_id = "Ev1"`, no retry header, not a bot message. -/
def sampleMessageRequest : SlackRequest :=
  ⟨none, true, none, none, some "Ev1", none, none, some "message", none, none,
    false⟩

/-- Witness for C5 at a concrete input: three deliveries of the same event
spawn exactly one task. -/
theorem slack_events_dedup_idempotent_witness :
    slackEventsRep sampleMessageRequest 3 [] =
      (evictOldest ([] ++ [eventKey sampleMessageRequest]), 1) ∧
    (∀ c', eventKey sampleMessageRequest ∈ c' →
      slackEvents c' sampleMessageRequest = (c', .accepted, false)) :=
  slack_events_dedup_idempotent [] sampleMessageRequest 3 rfl rfl (by decide)
    (by decide) (by simp) (by decide) (Or.inl rfl) (by decide)

end HomecareBot

namespace HomecareBot

/-- Contiguous-substring test on character lists (Python's `pat in s`). -/
def subListOf (pat : List Char) : List Char → Bool
  | [] => pat.isEmpty
  | c :: cs => pat.isPrefixOf (c :: cs) || subListOf pat cs

/-- Python `pat in str(e)`. -/
def strContains (hay pat : String) : Bool :=
  subListOf pat.data hay.data

/-- Outcome of the Slack `reactions.add` call in `RootAgent._claim_message`:
success, or an exception whose string form is `msg`. -/
inductive MarkResult where
  | success
  | failure (msg : String)
deriving DecidableEq

/-- Shallow embedding of `RootAgent._claim_message`: returns `true` on a
successful mark; on an exception it returns `false` exactly when the
exception text contains `already_reacted`, and `true` for any other failure
(err on the side of processing). -/
def claimMessage : MarkResult → Bool
  | .success => true
  | .failure msg => if strContains msg "already_reacted" = true then false
    else true

/-- C7: `_claim_message` returns `false` if and only if the mark call failed
with the `already_reacted` conflict; a successful mark and every other
failure (network, rate limit, unknown) return `true`. -/
theorem claim_message_false_iff_conflict :
    claimMessage .success = true ∧
    ∀ r, (claimMessage r = false ↔
      ∃ m, r = MarkResult.failure m ∧
        strContains m "already_reacted" = true) := by
  refine ⟨rfl, ?_⟩
  intro r
  cases r with
  | success =>
    constructor
    · intro hf
      exact absurd hf (by simp [claimMessage])
    · rintro ⟨m, hm, -⟩
      exact absurd hm (by simp)
  | failure m =>
    by_cases h : strContains m "already_reacted" = true
    · simp only [claimMessage]
      rw [if_pos h]
      exact ⟨fun _ => ⟨m, rfl, h⟩, fun _ => rfl⟩
    · simp only [claimMessage]
      rw [if_neg h]
      constructor
      · intro hf
        exact absurd hf (by simp)
      · rintro ⟨m', hm, hc⟩
        injection hm with he
        subst he
        exact absurd hc h

/-- Witness for C7 at concrete inputs: success claims, a conflict error does
not claim, and a network error claims anyway. -/
theorem claim_message_false_iff_conflict_witness :
    claimMessage .success = true ∧
    claimMessage (.failure "Slack API error: already_reacted") = false ∧
    claimMessage (.failure "network timeout") = true :=
  ⟨claim_message_false_iff_conflict.1,
   (claim_message_false_iff_conflict.2
      (MarkResult.failure "Slack API error: already_reacted")).mpr
        ⟨_, rfl, by decide⟩,
   by
    have h := claim_message_false_iff_conflict.2
      (MarkResult.failure "network timeout")
    rcases hb : claimMessage (MarkResult.failure "network timeout") with _ | _
    · rcases h.mp hb with ⟨m, hm, hc⟩
      injection hm with he
      subst he
      exact absurd hc (by decide)
    · rfl⟩

end HomecareBot

namespace HomecareBot

/-- Effects of the manual risk-level branch of `update_patient`
(`backend/api/patients.py`): the `risk_level` and `risk_level_source` values
written to the patient document, and the history entries appended via
`RiskService.record_manual_change`. -/
structure ManualUpdateOutcome where
  update_risk_level : Option String
  update_source : Option String
  history : List HistoryEntry
deriving DecidableEq

/-- Shallow embedding of the manual risk-level path of `update_patient`:
when the request carries a `risk_level` that differs from the stored one
(`update_data["risk_level"] != patient.get("risk_level")`), the update sets
`risk_level_source = "manual"` and `record_manual_change` appends one history
entry with source `manual`, trigger `manual_update`, `changed_by = "user"`
and a severity snapshot; when the submitted level equals the stored one, the
source is not set and no history entry is appended. -/
def updatePatientRisk (stored : Option String) (submitted : Option String)
    (alerts : List (Option String)) : ManualUpdateOutcome :=
  match submitted with
  | none => ⟨none, none, []⟩
  | some l =>
    if some l ≠ stored then
      ⟨some l, some "manual",
        [⟨stored.getD "low", l, "manual", "手動変更（userによる）",
          "manual_update", countSeverity alerts "high",
          countSeverity alerts "medium", countSeverity alerts "low", "user"⟩]⟩
    else ⟨some l, none, []⟩

/-- C9 counterexample: submitting a level equal to the patient's current one
(`low` over stored `low`) neither sets the source to `manual` nor appends a
history entry, contradicting the claim's "including when the submitted level
equals the patient's current level". -/
theorem manual_update_equal_level_skips :
    (updatePatientRisk (some "low") (some "low") []).update_source ≠
      some "manual" ∧
    (updatePatientRisk (some "low") (some "low") []).history = [] := by
  decide

/-- C9 amended: the patient-update operation sets `risk_level_source` to
`manual` and appends exactly one history entry with source `manual` and
trigger `manual_update` precisely when the submitted level differs from the
stored current level; when it is equal, neither the source write nor the
history append happens. -/
theorem manual_update_iff_differs (stored : Option String) (l : String)
    (alerts : List (Option String)) :
    (some l ≠ stored →
      (updatePatientRisk stored (some l) alerts).update_source =
        some "manual" ∧
      ∃ e, (updatePatientRisk stored (some l) alerts).history = [e] ∧
        e.source = "manual" ∧ e.trigger = "manual_update" ∧
        e.previous_level = stored.getD "low" ∧ e.new_level = l) ∧
    (some l = stored →
      (updatePatientRisk stored (some l) alerts).update_source = none ∧
      (updatePatientRisk stored (some l) alerts).history = []) := by
  constructor
  · intro h
    simp only [updatePatientRisk]
    rw [if_pos h]
    exact ⟨rfl, _, rfl, rfl, rfl, rfl, rfl⟩
  · intro h
    simp only [updatePatientRisk]
    rw [if_neg (not_not_intro h)]
    exact ⟨rfl, rfl⟩

/-- Witness for C9 (amended) at concrete inputs: high over stored low sets
the manual source and appends the entry; low over stored low does neither. -/
theorem manual_update_iff_differs_witness :
    ((updatePatientRisk (some "low") (some "high") []).update_source =
        some "manual" ∧
      ∃ e, (updatePatientRisk (some "low") (some "high") []).history = [e] ∧
        e.source = "manual" ∧ e.trigger = "manual_update" ∧
        e.previous_level = (some "low").getD "low" ∧ e.new_level = "high") ∧
    ((updatePatientRisk (some "low") (some "low") []).update_source = none ∧
      (updatePatientRisk (some "low") (some "low") []).history = []) :=
  ⟨(manual_update_iff_differs (some "low") "high" []).1 (by decide),
   (manual_update_iff_differs (some "low") "low" []).2 rfl⟩

end HomecareBot
